import Mathlib

/-!
Verification development for the FAQ accordion widget.

The repository contains two JavaScript variants of the accordion logic:

* `ScriptJs` models `src/script.js`: an exclusive ("accordion") click
  handler that first closes every `.faq-item` (removing the `active` class
  and resetting each icon to `"+"`) and then adds `active` to the clicked
  item and sets its icon to `"−"`.

* `Faq` models the IIFE in `src/unnamed/part_001`: independent per-item
  toggling (`toggleFAQ`), keyboard handling (Enter, Space, ArrowDown,
  ArrowUp), wraparound focus helpers (`getNextQuestion`,
  `getPreviousQuestion`) and the ARIA initialization pass.

DOM state is embedded shallowly: an item is a record of the observable
attributes the scripts read and write; a collection is a `List` of items;
each event handler is a pure state-transition function on that list.
-/

namespace ScriptJs

/-- One `.faq-item` as observed by `src/script.js`: presence of the
`active` class, the text content of its `.icon` child, and the
`aria-expanded` attribute of its `.faq-question` trigger (an attribute
this script never reads or writes; `none` means the attribute is absent). -/
structure SItem where
  active : Bool
  icon : String
  ariaExpanded : Option String
deriving Repr, DecidableEq

/-- Body of the close-all loop in the click handler:
`el.classList.remove("active"); el.querySelector(".icon").textContent = "+"`. -/
def closeItem (it : SItem) : SItem :=
  { it with active := false, icon := "+" }

/-- The click handler attached to the question of item `i`
(`src/script.js` lines 3–15): run the close-all loop over every
`.faq-item`, then `item.classList.add("active")` and set the clicked
question's icon text to `"−"`.  The index is always in range when the
handler fires (the question belongs to the collection); out-of-range
indices leave the close-all result unchanged. -/
def clickQuestion (items : List SItem) (i : Nat) : List SItem :=
  let closed := items.map closeItem
  match closed[i]? with
  | none => closed
  | some it => closed.set i { it with active := true, icon := "−" }

/-- Number of items whose `isOpen` (the `active` class) is true. -/
def countOpen (items : List SItem) : Nat :=
  (items.filter (fun it => it.active)).length

/-- The all-closed initial state of a collection of `n` items: no
`active` class, icon `"+"`, no `aria-expanded` attribute. -/
def initState (n : Nat) : List SItem :=
  List.replicate n { active := false, icon := "+", ariaExpanded := none }

/-- Run a sequence of clicks (each entry the index of the clicked
question) from a starting state. -/
def runClicks (items : List SItem) (seq : List Nat) : List SItem :=
  seq.foldl clickQuestion items

lemma countOpen_nil : countOpen [] = 0 := rfl

lemma countOpen_cons (a : SItem) (l : List SItem) :
    countOpen (a :: l) = (if a.active then 1 else 0) + countOpen l := by
  by_cases h : a.active <;> simp [countOpen, List.filter_cons, h, Nat.add_comm]

lemma countOpen_map_closeItem (items : List SItem) :
    countOpen (items.map closeItem) = 0 := by
  induction items with
  | nil => rfl
  | cons a l ih =>
      rw [List.map_cons, countOpen_cons]
      simp [closeItem, ih]

lemma countOpen_set_le_one (items : List SItem) (i : Nat) (v : SItem)
    (h : countOpen items = 0) : countOpen (items.set i v) ≤ 1 := by
  induction items generalizing i with
  | nil => simp [countOpen]
  | cons a l ih =>
      rw [countOpen_cons] at h
      have ha : a.active = false := by
        by_cases hb : a.active
        · simp [hb] at h
        · simpa using hb
      have hl : countOpen l = 0 := by
        rw [ha] at h; simpa using h
      cases i with
      | zero =>
          rw [List.set_cons_zero, countOpen_cons, hl]
          by_cases hv : v.active <;> simp [hv]
      | succ i =>
          rw [List.set_cons_succ, countOpen_cons, ha]
          simpa using ih i hl

lemma countOpen_clickQuestion_le_one (items : List SItem) (i : Nat) :
    countOpen (clickQuestion items i) ≤ 1 := by
  unfold clickQuestion
  dsimp only
  split
  · simp [countOpen_map_closeItem]
  · exact countOpen_set_le_one _ _ _ (countOpen_map_closeItem items)

lemma countOpen_initState (n : Nat) : countOpen (initState n) = 0 := by
  induction n with
  | zero => rfl
  | succ n ih =>
      rw [initState, List.replicate_succ, countOpen_cons]
      simpa [initState] using ih

lemma countOpen_runClicks_le_one (seq : List Nat) (items : List SItem)
    (h : countOpen items ≤ 1) : countOpen (runClicks items seq) ≤ 1 := by
  induction seq generalizing items with
  | nil => simpa [runClicks]
  | cons i rest ih =>
      rw [runClicks, List.foldl_cons]
      exact ih (clickQuestion items i) (countOpen_clickQuestion_le_one items i)

end ScriptJs

/-- C1: exclusive-mode invariant — starting from the all-closed initial
state of any size, after every sequence of click activations (hence after
each individual call, taking `seq` to be any prefix) the number of items
carrying the `active` class (`isOpen = true`) is at most one. -/
theorem C1_exclusive_at_most_one_open (n : Nat) (seq : List Nat) :
    ScriptJs.countOpen (ScriptJs.runClicks (ScriptJs.initState n) seq) ≤ 1 :=
  ScriptJs.countOpen_runClicks_le_one seq _
    (by rw [ScriptJs.countOpen_initState n]; exact Nat.zero_le 1)

/-- C2: the repository's own documentation states that activating an
already-open item closes it ("opens the clicked item if it was previously
closed", leaving zero items open), but `src/script.js` unconditionally
re-opens the clicked item: with two items, clicking question 0 twice
leaves item 0 open with the `active` class and exactly one item open,
never zero. -/
theorem C2_toggle_off_missing_in_code :
    let s0 : List ScriptJs.SItem :=
      [{ active := false, icon := "+", ariaExpanded := none },
       { active := false, icon := "+", ariaExpanded := none }]
    let s1 := ScriptJs.clickQuestion s0 0
    let s2 := ScriptJs.clickQuestion s1 0
    (s1[0]?.map (fun it => it.active) = some true) ∧
    (s2[0]?.map (fun it => it.active) = some true) ∧
    ScriptJs.countOpen s2 = 1 ∧ ScriptJs.countOpen s2 ≠ 0 := by
  refine ⟨rfl, rfl, rfl, ?_⟩
  decide

namespace Faq

/-- The `.faq-question` trigger button inside an item, as read and written
by `src/unnamed/part_001`: its `aria-expanded`, `aria-controls`, `role`
and `tabindex` attributes (`none` = attribute absent). -/
structure Question where
  ariaExpanded : Option String
  ariaControls : Option String
  role : Option String
  tabindex : Option String
deriving Repr, DecidableEq

/-- The `.faq-answer` content panel: only its `id` attribute is touched. -/
structure Answer where
  id : Option String
deriving Repr, DecidableEq

/-- One `.faq-item` in the independent-toggle variant: the `active` class,
the icon text content (never touched by this variant), the trigger button
(`item.querySelector('.faq-question')`, present since every modelled item
is the `parentElement` of a question), and the optional `.faq-answer`
panel (`none` when `item.querySelector('.faq-answer')` finds nothing). -/
structure Item where
  active : Bool
  icon : String
  question : Question
  answer : Option Answer
deriving Repr, DecidableEq

/-- `toggleFAQ(item)` from `src/unnamed/part_001` lines 40–69: if the item
has the `active` class, remove it and set `aria-expanded="false"` on the
button; otherwise add the class and set `aria-expanded="true"`.  No other
item and no other field is touched. -/
def toggleFAQ (item : Item) : Item :=
  if item.active then
    { item with
        active := false
        question := { item.question with ariaExpanded := some "false" } }
  else
    { item with
        active := true
        question := { item.question with ariaExpanded := some "true" } }

/-- The click (and Enter/Space) activation path: the handler on question
`i` calls `toggleFAQ(question.parentElement)`, i.e. toggles item `i` of
the collection and leaves every other item alone. -/
def clickFAQ (items : List Item) (i : Nat) : List Item :=
  match items[i]? with
  | none => items
  | some it => items.set i (toggleFAQ it)

/-- `getNextQuestion` (lines 146–161): index of the next question with
wraparound, `(currentIndex + 1) % questionsArray.length`, for the
question at position `i` in a collection of size `n`. -/
def getNextQuestion (n i : Nat) : Nat := (i + 1) % n

/-- `getPreviousQuestion` (lines 168–177): index of the previous question
with wraparound, `(currentIndex - 1 + questionsArray.length) %
questionsArray.length`, computed in JavaScript number arithmetic (the
subtraction may go below zero before the length is added back, so the
embedding computes in `Int` and converts the non-negative result). -/
def getPreviousQuestion (n i : Nat) : Nat :=
  (((i : Int) - 1 + (n : Int)) % (n : Int)).toNat

/-- The page state the handlers can reach: the item collection and the
index of the trigger currently holding keyboard focus. -/
structure PageState where
  items : List Item
  focus : Nat
deriving Repr, DecidableEq

/-- The `keydown` handler registered on question `i` (lines 101–137):
Enter or `' '` toggles the parent item; ArrowDown focuses the next
question; ArrowUp focuses the previous question; the three checks are
sequential independent `if`s, and any other key matches none of them. -/
def keydown (st : PageState) (i : Nat) (key : String) : PageState :=
  let st1 :=
    if key = "Enter" ∨ key = " " then
      { st with items := clickFAQ st.items i }
    else st
  let st2 :=
    if key = "ArrowDown" then
      { st1 with focus := getNextQuestion st1.items.length i }
    else st1
  if key = "ArrowUp" then
    { st2 with focus := getPreviousQuestion st2.items.length i }
  else st2

/-- The generated panel id `'faq-answer-' + index + '-' + Date.now()`;
the clock reading is passed in as `now`. -/
def answerId (idx now : Nat) : String :=
  "faq-answer-" ++ toString idx ++ "-" ++ toString now

/-- Body of the initialization `forEach` (lines 185–217) for the question
at position `idx`: when the item has an answer panel, set the panel's
`id` and the button's `aria-controls` to the generated id; in every case
set `role="button"` and `tabindex="0"` on the button.  `aria-expanded`,
the `active` class and the icon are not touched. -/
def initQuestion (now idx : Nat) (it : Item) : Item :=
  let it1 :=
    match it.answer with
    | some ans =>
        { it with
            answer := some { ans with id := some (answerId idx now) }
            question := { it.question with ariaControls := some (answerId idx now) } }
    | none => it
  { it1 with
      question := { it1.question with role := some "button", tabindex := some "0" } }

/-- The initialization `forEach` over the whole collection, threading the
running index. -/
def initFrom (now idx : Nat) : List Item → List Item
  | [] => []
  | it :: rest => initQuestion now idx it :: initFrom now (idx + 1) rest

/-- The full attribute-initialization pass (index starts at 0). -/
def initAll (now : Nat) (items : List Item) : List Item := initFrom now 0 items

/-- Outcome of the `DOMContentLoaded` callback: console warnings emitted,
the item collection after the callback, and whether click/keydown
handlers were registered. -/
structure LoadResult where
  warnings : List String
  items : List Item
  handlersRegistered : Bool
deriving Repr, DecidableEq

/-- The `DOMContentLoaded` callback (lines 17–32 and onward): if the
question collection is empty it logs `console.warn('No FAQ questions
found on the page')` and returns early — no listeners registered, no
attributes set; otherwise it registers the handlers and runs the
attribute-initialization pass.  The function is total: no exception
propagates in either case. -/
def domContentLoaded (now : Nat) (faqQuestions : List Item) : LoadResult :=
  if faqQuestions.length = 0 then
    { warnings := ["No FAQ questions found on the page"]
      items := faqQuestions
      handlersRegistered := false }
  else
    { warnings := []
      items := initAll now faqQuestions
      handlersRegistered := true }

lemma length_initFrom (now idx : Nat) (items : List Item) :
    (initFrom now idx items).length = items.length := by
  induction items generalizing idx with
  | nil => rfl
  | cons a l ih => simp [initFrom, ih]

lemma getElem?_initFrom (now idx i : Nat) (items : List Item) :
    (initFrom now idx items)[i]? = items[i]?.map (initQuestion now (idx + i)) := by
  induction items generalizing idx i with
  | nil => simp [initFrom]
  | cons a l ih =>
      cases i with
      | zero => simp [initFrom]
      | succ i =>
          have harith : idx + 1 + i = idx + (i + 1) := by omega
          simp only [initFrom, List.getElem?_cons_succ, ih (idx + 1) i, harith]

lemma getElem?_initAll (now i : Nat) (items : List Item) :
    (initAll now items)[i]? = items[i]?.map (initQuestion now i) := by
  simpa using getElem?_initFrom now 0 i items

lemma initQuestion_role (now idx : Nat) (it : Item) :
    (initQuestion now idx it).question.role = some "button" := by
  unfold initQuestion
  cases it.answer <;> rfl

lemma initQuestion_tabindex (now idx : Nat) (it : Item) :
    (initQuestion now idx it).question.tabindex = some "0" := by
  unfold initQuestion
  cases it.answer <;> rfl

lemma initQuestion_ariaExpanded (now idx : Nat) (it : Item) :
    (initQuestion now idx it).question.ariaExpanded = it.question.ariaExpanded := by
  unfold initQuestion
  cases h : it.answer <;> simp [h]

lemma initQuestion_active (now idx : Nat) (it : Item) :
    (initQuestion now idx it).active = it.active := by
  unfold initQuestion
  cases h : it.answer <;> simp [h]

lemma initQuestion_icon (now idx : Nat) (it : Item) :
    (initQuestion now idx it).icon = it.icon := by
  unfold initQuestion
  cases h : it.answer <;> simp [h]

end Faq

namespace ScriptJs

lemma lt_length_of_getElem?_some {l : List SItem} {i : Nat} {a : SItem}
    (h : l[i]? = some a) : i < l.length := by
  by_contra hlt
  rw [List.getElem?_eq_none (by omega)] at h
  exact Option.noConfusion h

lemma map_closeItem_spec (items : List SItem) (j : Nat) (it : SItem)
    (h : (items.map closeItem)[j]? = some it) :
    it.active = false ∧ it.icon = "+" ∧
      ∃ it0, items[j]? = some it0 ∧ it.ariaExpanded = it0.ariaExpanded := by
  rw [List.getElem?_map] at h
  cases h0 : items[j]? with
  | none => rw [h0] at h; exact Option.noConfusion h
  | some it0 =>
      rw [h0] at h
      have hit : it = closeItem it0 := by
        simpa using h.symm
      subst hit
      exact ⟨rfl, rfl, it0, rfl, rfl⟩

lemma clickQuestion_spec (items : List SItem) (i j : Nat) (it : SItem)
    (h : (clickQuestion items i)[j]? = some it) :
    it.icon = (if it.active then "−" else "+") ∧
      ∃ it0, items[j]? = some it0 ∧ it.ariaExpanded = it0.ariaExpanded := by
  unfold clickQuestion at h
  dsimp only at h
  split at h
  · rcases map_closeItem_spec items j it h with ⟨ha, hi, hrest⟩
    rw [ha, hi]
    exact ⟨rfl, hrest⟩
  · rename_i itc heq
    by_cases hj : j = i
    · subst hj
      have hlt : j < (items.map closeItem).length := lt_length_of_getElem?_some heq
      rw [List.getElem?_set_eq_of_lt _ hlt] at h
      have hit : it = { itc with active := true, icon := "−" } := by
        simpa using h.symm
      rcases map_closeItem_spec items j itc heq with ⟨_, _, it0, h0, haria⟩
      subst hit
      exact ⟨rfl, it0, h0, haria⟩
    · rw [List.getElem?_set_ne (by omega)] at h
      rcases map_closeItem_spec items j it h with ⟨ha, hi, hrest⟩
      rw [ha, hi]
      exact ⟨rfl, hrest⟩

end ScriptJs

namespace Faq

lemma lt_length_of_some_item {l : List Item} {i : Nat} {a : Item}
    (h : l[i]? = some a) : i < l.length := by
  by_contra hlt
  rw [List.getElem?_eq_none (by omega)] at h
  exact Option.noConfusion h

lemma toggleFAQ_active (it : Item) : (toggleFAQ it).active = !it.active := by
  unfold toggleFAQ
  by_cases h : it.active <;> simp [h]

lemma toggleFAQ_icon (it : Item) : (toggleFAQ it).icon = it.icon := by
  unfold toggleFAQ
  by_cases h : it.active <;> simp [h]

lemma toggleFAQ_answer (it : Item) : (toggleFAQ it).answer = it.answer := by
  unfold toggleFAQ
  by_cases h : it.active <;> simp [h]

lemma toggleFAQ_aria (it : Item) :
    (toggleFAQ it).question.ariaExpanded
      = some (if (toggleFAQ it).active then "true" else "false") := by
  unfold toggleFAQ
  by_cases h : it.active <;> simp [h]

lemma clickFAQ_getElem?_ne (items : List Item) (i k : Nat) (hk : k ≠ i) :
    (clickFAQ items i)[k]? = items[k]? := by
  unfold clickFAQ
  split
  · rfl
  · exact List.getElem?_set_ne (by omega)

lemma clickFAQ_getElem?_eq (items : List Item) (i : Nat) (it : Item)
    (hi : items[i]? = some it) :
    (clickFAQ items i)[i]? = some (toggleFAQ it) := by
  unfold clickFAQ
  rw [hi]
  exact List.getElem?_set_eq_of_lt _ (lt_length_of_some_item hi)

end Faq

/-- C3: the claim joins glyph consistency and `aria-expanded` consistency,
but neither variant maintains both: `part_001`'s `toggleFAQ` updates
`aria-expanded` yet never touches the icon glyph, so activating a closed
item whose icon is `"+"` leaves the icon `"+"` while the item is open —
the glyph does not equal the minus glyph the claim requires. -/
theorem C3_counterexample_icon_stale :
    let it : Faq.Item :=
      { active := false, icon := "+"
        question := { ariaExpanded := some "false", ariaControls := none,
                      role := none, tabindex := none }
        answer := none }
    (Faq.toggleFAQ it).active = true ∧
    (Faq.toggleFAQ it).icon = "+" ∧
    (Faq.toggleFAQ it).icon ≠ "−" := by
  refine ⟨rfl, rfl, ?_⟩
  decide

/-- C3 (amended): after every activate call, in the `script.js` variant
every item's icon glyph equals its `isOpen` (minus when open, plus when
closed) while `aria-expanded` is left unchanged; in the `part_001`
variant the toggled item's `aria-expanded` equals its new `isOpen`
(`"true"`/`"false"`) and untouched items keep all their state, while the
icon glyph is never modified by the toggle. -/
theorem C3_amended_rendered_state
    (sitems : List ScriptJs.SItem) (i j : Nat) (sit : ScriptJs.SItem)
    (fitems : List Faq.Item) (k : Nat) (fit : Faq.Item)
    (hs : (ScriptJs.clickQuestion sitems i)[j]? = some sit)
    (hk : k ≠ i) :
    (sit.icon = (if sit.active then "−" else "+")) ∧
    (∃ sit0, sitems[j]? = some sit0 ∧ sit.ariaExpanded = sit0.ariaExpanded) ∧
    ((Faq.toggleFAQ fit).question.ariaExpanded
        = some (if (Faq.toggleFAQ fit).active then "true" else "false")) ∧
    ((Faq.toggleFAQ fit).icon = fit.icon) ∧
    ((Faq.clickFAQ fitems i)[k]? = fitems[k]?) := by
  rcases ScriptJs.clickQuestion_spec sitems i j sit hs with ⟨hicon, hrest⟩
  exact ⟨hicon, hrest, Faq.toggleFAQ_aria fit, Faq.toggleFAQ_icon fit,
    Faq.clickFAQ_getElem?_ne fitems i k hk⟩

/-- Witness for C3 (amended): two concrete items, question 0 clicked,
item 1 inspected. -/
theorem C3_amended_rendered_state_witness :
    let s0 : List ScriptJs.SItem :=
      [{ active := false, icon := "+", ariaExpanded := some "false" },
       { active := true, icon := "−", ariaExpanded := some "true" }]
    let f0 : List Faq.Item :=
      [{ active := false, icon := "+"
         question := { ariaExpanded := some "false", ariaControls := none,
                       role := none, tabindex := none }
         answer := none }]
    let sit : ScriptJs.SItem :=
      { active := false, icon := "+", ariaExpanded := some "true" }
    let fit : Faq.Item :=
      { active := false, icon := "+"
        question := { ariaExpanded := some "false", ariaControls := none,
                      role := none, tabindex := none }
        answer := none }
    (sit.icon = (if sit.active then "−" else "+")) ∧
    (∃ sit0, s0[1]? = some sit0 ∧ sit.ariaExpanded = sit0.ariaExpanded) ∧
    ((Faq.toggleFAQ fit).question.ariaExpanded
        = some (if (Faq.toggleFAQ fit).active then "true" else "false")) ∧
    ((Faq.toggleFAQ fit).icon = fit.icon) ∧
    ((Faq.clickFAQ f0 0)[1]? = f0[1]?) :=
  C3_amended_rendered_state _ 0 1 _ _ 1 _ rfl (by decide)

/-- C4: the claim says `initialize` leaves every trigger with
`aria-expanded="false"`, but the initialization pass in
`src/unnamed/part_001` sets only `id`/`aria-controls`, `role` and
`tabindex` and never writes `aria-expanded`: a one-item collection whose
trigger starts without the attribute still lacks it after the
`DOMContentLoaded` callback completes. -/
theorem C4_counterexample_aria_expanded_not_set :
    let it : Faq.Item :=
      { active := false, icon := "+"
        question := { ariaExpanded := none, ariaControls := none,
                      role := none, tabindex := none }
        answer := none }
    let r := Faq.domContentLoaded 0 [it]
    r.items[0]?.map (fun x => x.question.ariaExpanded) = some none ∧
    r.items[0]?.map (fun x => x.question.ariaExpanded) ≠ some (some "false") := by
  exact ⟨rfl, by decide⟩

/-- C4 (amended): for every collection of size at least 1, after the
`DOMContentLoaded` callback completes every trigger carries
`role="button"` and `tabindex="0"`, and the pass leaves each item's
`aria-expanded` and its `active` class (`isOpen`) exactly as they were
before — so a trigger ends with `aria-expanded="false"` and `isOpen =
false` exactly when it started that way, not unconditionally. -/
theorem C4_amended_init_postcondition (now : Nat) (items : List Faq.Item)
    (i : Nat) (it : Faq.Item) (hn : 1 ≤ items.length)
    (hi : items[i]? = some it) :
    (Faq.domContentLoaded now items).items[i]?
        = some (Faq.initQuestion now i it) ∧
    (Faq.initQuestion now i it).question.role = some "button" ∧
    (Faq.initQuestion now i it).question.tabindex = some "0" ∧
    (Faq.initQuestion now i it).question.ariaExpanded
        = it.question.ariaExpanded ∧
    (Faq.initQuestion now i it).active = it.active := by
  have hne : ¬ items.length = 0 := by omega
  refine ⟨?_, Faq.initQuestion_role now i it, Faq.initQuestion_tabindex now i it,
    Faq.initQuestion_ariaExpanded now i it, Faq.initQuestion_active now i it⟩
  rw [Faq.domContentLoaded, if_neg hne]
  rw [Faq.getElem?_initAll, hi]
  rfl

/-- Witness for C4 (amended): a concrete one-item collection. -/
theorem C4_amended_init_postcondition_witness :
    let it : Faq.Item :=
      { active := false, icon := "+"
        question := { ariaExpanded := some "false", ariaControls := none,
                      role := none, tabindex := none }
        answer := none }
    (Faq.domContentLoaded 7 [it]).items[0]?
        = some (Faq.initQuestion 7 0 it) ∧
    (Faq.initQuestion 7 0 it).question.role = some "button" ∧
    (Faq.initQuestion 7 0 it).question.tabindex = some "0" ∧
    (Faq.initQuestion 7 0 it).question.ariaExpanded
        = it.question.ariaExpanded ∧
    (Faq.initQuestion 7 0 it).active = it.active :=
  C4_amended_init_postcondition 7 _ 0 _ (by decide) rfl

/-- C5: independent-mode frame condition — toggling item `i` flips only
item `i`'s `isOpen` (`active` class) and leaves every other item `j ≠ i`
entirely unchanged: its `isOpen`, its visual class, its icon and every
attribute of its trigger, since the untouched list entry is identical. -/
theorem C5_independent_frame (items : List Faq.Item) (i j : Nat)
    (it : Faq.Item) (hij : j ≠ i) (hi : items[i]? = some it) :
    (Faq.clickFAQ items i)[i]? = some (Faq.toggleFAQ it) ∧
    (Faq.toggleFAQ it).active = !it.active ∧
    (Faq.clickFAQ items i)[j]? = items[j]? :=
  ⟨Faq.clickFAQ_getElem?_eq items i it hi, Faq.toggleFAQ_active it,
    Faq.clickFAQ_getElem?_ne items i j hij⟩

/-- Witness for C5: a concrete two-item collection, item 0 toggled,
item 1 inspected. -/
theorem C5_independent_frame_witness :
    let f0 : List Faq.Item :=
      [{ active := false, icon := "+"
         question := { ariaExpanded := some "false", ariaControls := none,
                       role := none, tabindex := none }
         answer := none },
       { active := true, icon := "−"
         question := { ariaExpanded := some "true", ariaControls := none,
                       role := none, tabindex := none }
         answer := none }]
    let it : Faq.Item :=
      { active := false, icon := "+"
        question := { ariaExpanded := some "false", ariaControls := none,
                      role := none, tabindex := none }
        answer := none }
    (Faq.clickFAQ f0 0)[0]? = some (Faq.toggleFAQ it) ∧
    (Faq.toggleFAQ it).active = !it.active ∧
    (Faq.clickFAQ f0 0)[1]? = f0[1]? :=
  C5_independent_frame _ 0 1 _ (by decide) rfl

namespace Faq

lemma getPreviousQuestion_eq (n i : Nat) (hn : 1 ≤ n) :
    getPreviousQuestion n i = (i + n - 1) % n := by
  unfold getPreviousQuestion
  have h1 : (i : Int) - 1 + (n : Int) = ((i + n - 1 : Nat) : Int) := by omega
  rw [h1, ← Int.natCast_mod, Int.toNat_natCast]

lemma keydown_arrowDown (st : PageState) (i : Nat) :
    keydown st i "ArrowDown" = { st with focus := getNextQuestion st.items.length i } := by
  unfold keydown
  simp

lemma keydown_arrowUp (st : PageState) (i : Nat) :
    keydown st i "ArrowUp" = { st with focus := getPreviousQuestion st.items.length i } := by
  unfold keydown
  simp

lemma initQuestion_answer_none (now idx : Nat) (it : Item)
    (h : it.answer = none) :
    initQuestion now idx it =
      { it with
          question := { it.question with
                          role := some "button", tabindex := some "0" } } := by
  obtain ⟨a, ic, q, ans⟩ := it
  cases ans with
  | none => rfl
  | some ans => simp at h

lemma initQuestion_answer_some (now idx : Nat) (it : Item) (ans : Answer)
    (h : it.answer = some ans) :
    (initQuestion now idx it).question.ariaControls = some (answerId idx now) ∧
    (initQuestion now idx it).answer
      = some { ans with id := some (answerId idx now) } := by
  unfold initQuestion
  rw [h]
  exact ⟨rfl, rfl⟩

end Faq

/-- C6: wraparound keyboard navigation — in a collection of `n ≥ 1`
questions, ArrowDown from the question at index `i` moves focus to index
`(i+1) % n` and ArrowUp to `(i-1+n) % n`; in particular ArrowUp from
index 0 reaches `n-1` and ArrowDown from `n-1` reaches 0; the item list
(and hence every item's `isOpen`) is unchanged by both moves. -/
theorem C6_wraparound_focus (items : List Faq.Item) (n i : Nat)
    (hn : items.length = n) (h1 : 1 ≤ n) (_hi : i < n) :
    Faq.getNextQuestion n i = (i + 1) % n ∧
    Faq.getPreviousQuestion n i = (i + n - 1) % n ∧
    Faq.getPreviousQuestion n 0 = n - 1 ∧
    Faq.getNextQuestion n (n - 1) = 0 ∧
    Faq.keydown ⟨items, i⟩ i "ArrowDown"
      = ⟨items, Faq.getNextQuestion n i⟩ ∧
    Faq.keydown ⟨items, i⟩ i "ArrowUp"
      = ⟨items, Faq.getPreviousQuestion n i⟩ := by
  refine ⟨rfl, Faq.getPreviousQuestion_eq n i h1, ?_, ?_, ?_, ?_⟩
  · rw [Faq.getPreviousQuestion_eq n 0 h1]
    have h2 : 0 + n - 1 = n - 1 := by omega
    rw [h2, Nat.mod_eq_of_lt (by omega)]
  · unfold Faq.getNextQuestion
    have h2 : n - 1 + 1 = n := by omega
    rw [h2, Nat.mod_self]
  · rw [Faq.keydown_arrowDown]
    simp [hn]
  · rw [Faq.keydown_arrowUp]
    simp [hn]

/-- Witness for C6: three concrete items, focus moved from index 0. -/
theorem C6_wraparound_focus_witness :
    let q : Faq.Question :=
      { ariaExpanded := some "false", ariaControls := none,
        role := none, tabindex := none }
    let f0 : List Faq.Item :=
      [{ active := false, icon := "+", question := q, answer := none },
       { active := false, icon := "+", question := q, answer := none },
       { active := false, icon := "+", question := q, answer := none }]
    Faq.getNextQuestion 3 0 = (0 + 1) % 3 ∧
    Faq.getPreviousQuestion 3 0 = (0 + 3 - 1) % 3 ∧
    Faq.getPreviousQuestion 3 0 = 3 - 1 ∧
    Faq.getNextQuestion 3 (3 - 1) = 0 ∧
    Faq.keydown ⟨f0, 0⟩ 0 "ArrowDown" = ⟨f0, Faq.getNextQuestion 3 0⟩ ∧
    Faq.keydown ⟨f0, 0⟩ 0 "ArrowUp" = ⟨f0, Faq.getPreviousQuestion 3 0⟩ :=
  C6_wraparound_focus _ 3 0 (by decide) (by decide) (by decide)

/-- C7: key-event completeness — the `keydown` handler checks only for
`'Enter'`, `' '`, `'ArrowDown'` and `'ArrowUp'`; for any other key it
falls through all three `if`s and returns the page state unchanged: no
item's `isOpen`, class or attributes and no focus position is modified. -/
theorem C7_other_keys_no_effect (st : Faq.PageState) (i : Nat) (key : String)
    (h1 : key ≠ "Enter") (h2 : key ≠ " ") (h3 : key ≠ "ArrowDown")
    (h4 : key ≠ "ArrowUp") :
    Faq.keydown st i key = st := by
  unfold Faq.keydown
  simp [h1, h2, h3, h4]

/-- Witness for C7: pressing Escape on a concrete one-item page. -/
theorem C7_other_keys_no_effect_witness :
    let st : Faq.PageState :=
      { items := [{ active := true, icon := "−"
                    question := { ariaExpanded := some "true", ariaControls := none,
                                  role := some "button", tabindex := some "0" }
                    answer := none }]
        focus := 0 }
    Faq.keydown st 0 "Escape" = st :=
  C7_other_keys_no_effect _ 0 "Escape" (by decide) (by decide) (by decide)
    (by decide)

/-- C8: empty-collection handling — with no `.faq-question` elements the
`DOMContentLoaded` callback logs exactly the warning `'No FAQ questions
found on the page'` and returns early: the (empty) collection is
untouched, no handlers are registered, and the callback is a total
function, so no exception reaches the caller. -/
theorem C8_empty_collection_warns (now : Nat) :
    Faq.domContentLoaded now [] =
      { warnings := ["No FAQ questions found on the page"]
        items := []
        handlersRegistered := false } := rfl

/-- C9: missing-panel tolerance — an item whose `.faq-answer` panel is
absent only skips the id/`aria-controls` linking step: its trigger still
receives `role="button"` and `tabindex="0"` and nothing else about it
changes, while any other item that does have a panel is fully processed
(panel `id` and trigger `aria-controls` set to the generated id, plus
`role` and `tabindex`); the pass runs over the whole collection and its
length is preserved, so one unlinked item never aborts initialization. -/
theorem C9_missing_panel_tolerated (now : Nat) (items : List Faq.Item)
    (i j : Nat) (it itj : Faq.Item) (ansj : Faq.Answer)
    (hi : items[i]? = some it) (hno : it.answer = none)
    (hj : items[j]? = some itj) (hja : itj.answer = some ansj) :
    (Faq.initAll now items).length = items.length ∧
    (Faq.initAll now items)[i]? = some
      { it with
          question := { it.question with
                          role := some "button", tabindex := some "0" } } ∧
    (Faq.initAll now items)[j]? = some (Faq.initQuestion now j itj) ∧
    (Faq.initQuestion now j itj).question.ariaControls
      = some (Faq.answerId j now) ∧
    (Faq.initQuestion now j itj).answer
      = some { ansj with id := some (Faq.answerId j now) } ∧
    (Faq.initQuestion now j itj).question.role = some "button" ∧
    (Faq.initQuestion now j itj).question.tabindex = some "0" := by
  obtain ⟨hctrl, hans⟩ := Faq.initQuestion_answer_some now j itj ansj hja
  refine ⟨Faq.length_initFrom now 0 items, ?_, ?_, hctrl, hans,
    Faq.initQuestion_role now j itj, Faq.initQuestion_tabindex now j itj⟩
  · rw [Faq.getElem?_initAll, hi, Option.map_some']
    rw [Faq.initQuestion_answer_none now i it hno]
  · rw [Faq.getElem?_initAll, hj, Option.map_some']

/-- Witness for C9: item 0 has no panel, item 1 has one. -/
theorem C9_missing_panel_tolerated_witness :
    let q : Faq.Question :=
      { ariaExpanded := none, ariaControls := none,
        role := none, tabindex := none }
    let it0 : Faq.Item :=
      { active := false, icon := "+", question := q, answer := none }
    let it1 : Faq.Item :=
      { active := false, icon := "+", question := q,
        answer := some { id := none } }
    let f0 : List Faq.Item := [it0, it1]
    (Faq.initAll 5 f0).length = f0.length ∧
    (Faq.initAll 5 f0)[0]? = some
      { it0 with
          question := { it0.question with
                          role := some "button", tabindex := some "0" } } ∧
    (Faq.initAll 5 f0)[1]? = some (Faq.initQuestion 5 1 it1) ∧
    (Faq.initQuestion 5 1 it1).question.ariaControls
      = some (Faq.answerId 1 5) ∧
    (Faq.initQuestion 5 1 it1).answer
      = some { id := some (Faq.answerId 1 5) } ∧
    (Faq.initQuestion 5 1 it1).question.role = some "button" ∧
    (Faq.initQuestion 5 1 it1).question.tabindex = some "0" :=
  C9_missing_panel_tolerated 5 _ 0 1 _ _ _ rfl rfl rfl rfl

/-- C10: the claim says a double toggle restores the trigger's
`aria-expanded` to its value before the first call for every starting
state, but `toggleFAQ` always writes a concrete value: an item that
starts closed with no `aria-expanded` attribute ends the double toggle
with `aria-expanded="false"`, not with the attribute absent as before. -/
theorem C10_counterexample_double_toggle_aria :
    let it : Faq.Item :=
      { active := false, icon := "+"
        question := { ariaExpanded := none, ariaControls := none,
                      role := none, tabindex := none }
        answer := none }
    (Faq.toggleFAQ (Faq.toggleFAQ it)).active = it.active ∧
    (Faq.toggleFAQ (Faq.toggleFAQ it)).question.ariaExpanded = some "false" ∧
    (Faq.toggleFAQ (Faq.toggleFAQ it)).question.ariaExpanded
      ≠ it.question.ariaExpanded :=
  ⟨rfl, rfl, by decide⟩

/-- C10 (amended): toggling the same item twice restores its `active`
class (and its icon, panel and all other state), and sets
`aria-expanded` to the value consistent with the restored class
(`"true"` when active, `"false"` when not); hence the original
`aria-expanded` value is restored exactly when it already was that
consistent value, the only case the rendered state allows after any
previous toggle. -/
theorem C10_amended_double_toggle (it : Faq.Item) :
    (Faq.toggleFAQ (Faq.toggleFAQ it)).active = it.active ∧
    (Faq.toggleFAQ (Faq.toggleFAQ it)).icon = it.icon ∧
    (Faq.toggleFAQ (Faq.toggleFAQ it)).answer = it.answer ∧
    (Faq.toggleFAQ (Faq.toggleFAQ it)).question.ariaExpanded
      = some (if it.active then "true" else "false") ∧
    (it.question.ariaExpanded = some (if it.active then "true" else "false") →
      Faq.toggleFAQ (Faq.toggleFAQ it) = it) := by
  obtain ⟨a, ic, ⟨ae, ac, r, t⟩, ans⟩ := it
  unfold Faq.toggleFAQ
  by_cases h : a <;> simp [h] <;> exact fun he => he.symm

/-- Witness for C10 (amended): a consistent open item is restored
exactly by a double toggle. -/
theorem C10_amended_double_toggle_witness :
    let it : Faq.Item :=
      { active := true, icon := "−"
        question := { ariaExpanded := some "true", ariaControls := none,
                      role := some "button", tabindex := some "0" }
        answer := none }
    Faq.toggleFAQ (Faq.toggleFAQ it) = it :=
  (C10_amended_double_toggle _).2.2.2.2 rfl
